import Mathlib

/-!
# Verification of the payhook-ng webhook verification pipeline

A shallow embedding of the payhook-ng library (TypeScript): the
timing-safe comparators (`src/utils.ts`), the Paystack and Flutterwave
provider verifiers (`src/paystack/verify.ts`, `src/flutterwave/verify.ts`),
the in-memory idempotency store (`InMemoryIdempotencyStore.recordIfAbsent`),
and the unified `verify` pipeline (detection → signature → freshness →
idempotency).

Modelling conventions:
* JavaScript values flowing through the pipeline are modelled by `JsValue`;
  JS `undefined` is modelled by `Option.none` at use sites.
* Node/V8 primitives that are external to the repository (HMAC-SHA512,
  `JSON.parse`, `Date` string parsing, `Date.now`) are oracle fields of a
  `JsRuntime` record, constrained only by their documented output shapes
  (an HMAC-SHA512 hex digest is 64 bytes, each < 256).
* Byte sequences are `List Nat` with values < 256 where it matters.
* Numeric configuration (TTL, max age, timestamps in ms) is modelled with
  `Int`; the fractional age-in-seconds computed by the pipeline is `ℚ`.
* `Buffer.from(s, 'hex')` follows Node's semantics: decode hex-digit pairs
  left to right, stop at the first invalid pair, drop a trailing lone char.
-/

namespace Payhook

/-- JavaScript values as they occur in parsed webhook payloads. -/
inductive JsValue where
  | null
  | bool (b : Bool)
  | num (n : Int)
  | str (s : String)
  | arr (elems : List JsValue)
  | obj (fields : List (String × JsValue))

instance : Inhabited JsValue := ⟨.null⟩

mutual

/-- JS `String(v)` / template-literal stringification. -/
def jsToString : JsValue → String
  | .null => "null"
  | .bool true => "true"
  | .bool false => "false"
  | .num n => toString n
  | .str s => s
  | .arr es => String.intercalate "," (jsArrElems es)
  | .obj _ => "[object Object]"

/-- Elements of `Array.prototype.toString` (join with ","); `null` joins as "". -/
def jsArrElems : List JsValue → List String
  | [] => []
  | .null :: rest => "" :: jsArrElems rest
  | v :: rest => jsToString v :: jsArrElems rest

end

/-- JS truthiness of a value (no NaN in the modelled numeric fragment). -/
def truthy : JsValue → Bool
  | .null => false
  | .bool b => b
  | .num n => n != 0
  | .str s => s != ""
  | .arr _ => true
  | .obj _ => true

/-- Property access `v.k`; non-objects and missing keys give `undefined`. -/
def JsValue.getField (v : JsValue) (k : String) : Option JsValue :=
  match v with
  | .obj fields => fields.lookup k
  | _ => none

/-- Optional chaining `v?.k` over a possibly-`undefined` value. -/
def optField (v : Option JsValue) (k : String) : Option JsValue :=
  match v with
  | none => none
  | some x => x.getField k

/-- Truthiness of a possibly-`undefined` value. -/
def truthyOpt : Option JsValue → Bool
  | none => false
  | some v => truthy v

/-- JS `a || b` on possibly-`undefined` values. -/
def jsOr (a b : Option JsValue) : Option JsValue :=
  if truthyOpt a then a else b

/-- Truthiness of a `string | undefined` value. -/
def truthyStrOpt : Option String → Bool
  | none => false
  | some s => s != ""

/-- ASCII lower-casing of a character, as `String.prototype.toLowerCase`
acts on the ASCII header names used by the library. -/
def charLower (c : Char) : Char :=
  if 'A' ≤ c ∧ c ≤ 'Z' then Char.ofNat (c.toNat + 32) else c

/-- `name.toLowerCase()` restricted to ASCII. -/
def lowerStr (s : String) : String :=
  ⟨s.data.map charLower⟩

/-- A header value: `string | string[] | undefined`. -/
inductive HeaderValue where
  | str (s : String)
  | arr (ss : List String)
  | undef
deriving Repr, DecidableEq

/-- `HttpHeaders = Record<string, string | string[] | undefined>`. -/
abbrev HttpHeaders := List (String × HeaderValue)

/-- `getHeader` from `src/utils.ts`: case-insensitive lookup; the first
matching entry decides (a repeated-header array yields its first element). -/
def getHeader (headers : HttpHeaders) (name : String) : Option String :=
  let target := lowerStr name
  match headers.find? (fun kv => lowerStr kv.1 == target) with
  | some (_, .str v) => some v
  | some (_, .arr l) => l.head?
  | some (_, .undef) => none
  | none => none

/-! ## Hex encoding and the timing-safe comparators (`src/utils.ts`) -/

/-- Value of a hex digit character, `none` when not a hex digit. -/
def hexDigitVal (c : Char) : Option Nat :=
  if '0' ≤ c ∧ c ≤ '9' then some (c.toNat - '0'.toNat)
  else if 'a' ≤ c ∧ c ≤ 'f' then some (c.toNat - 'a'.toNat + 10)
  else if 'A' ≤ c ∧ c ≤ 'F' then some (c.toNat - 'A'.toNat + 10)
  else none

/-- Node `Buffer.from(·,'hex')`: decode pairs left to right, stop at the
first pair containing a non-hex character; a trailing lone char is dropped. -/
def hexDecodeAux : List Char → List Nat
  | a :: b :: rest =>
    match hexDigitVal a, hexDigitVal b with
    | some ha, some hb => (16 * ha + hb) :: hexDecodeAux rest
    | _, _ => []
  | _ => []

/-- `Buffer.from(s, 'hex')` as a byte list. It never throws. -/
def bufferFromHex (s : String) : List Nat :=
  hexDecodeAux s.data

/-- Lower-case hex digit character for a nibble. -/
def hexChar (n : Nat) : Char :=
  if n < 10 then Char.ofNat ('0'.toNat + n) else Char.ofNat ('a'.toNat + (n - 10))

/-- Two hex characters of one byte. -/
def hexEncodeByte (b : Nat) : List Char :=
  [hexChar (b / 16 % 16), hexChar (b % 16)]

/-- `buf.toString('hex')` / `digest('hex')` of a byte list. -/
def hexEncode (bs : List Nat) : String :=
  ⟨(bs.map hexEncodeByte).flatten⟩

/-- `timingSafeEqualHex` from `src/utils.ts`: decode both sides from hex,
`false` on unequal decoded length, otherwise constant-time byte equality
(`crypto.timingSafeEqual` modelled by list equality).  `Buffer.from(·,'hex')`
never throws and the length guard precedes `timingSafeEqual`, so the
`catch` branch of the source is unreachable. -/
def timingSafeEqualHex (aHex bHex : String) : Bool :=
  let a := bufferFromHex aHex
  let b := bufferFromHex bHex
  if a.length ≠ b.length then false
  else a == b

/-- `timingSafeEqualStrings` from `src/utils.ts`: UTF-8 encode both sides,
`false` on unequal byte length, otherwise constant-time byte equality
(UTF-8 encoding is injective, so byte equality is string equality). -/
def timingSafeEqualStrings (a b : String) : Bool :=
  if a.utf8ByteSize ≠ b.utf8ByteSize then false
  else a == b

/-! ## The JavaScript runtime oracle

Primitives the library calls but that live outside the repository
(`node:crypto`, `JSON.parse`, `Date`).  `hmacSha512 k m` is the digest byte
list of `crypto.createHmac('sha512', k).update(m).digest()`; its only
constraints are the documented output shape (64 bytes, each < 256).
Raw bodies are modelled as their UTF-8 string (the library converts
string/Buffer/Uint8Array bodies to the same byte sequence both for hashing
and for `toString('utf8')`, so the string determines both). -/

structure JsRuntime where
  /-- `crypto.createHmac('sha512', secret).update(body).digest()`. -/
  hmacSha512 : String → String → List Nat
  hmac_len : ∀ k m, (hmacSha512 k m).length = 64
  hmac_lt : ∀ k m b, b ∈ hmacSha512 k m → b < 256
  /-- `JSON.parse`; `none` models a thrown `SyntaxError`. -/
  jsonParse : String → Option JsValue
  /-- `new Date(string).getTime()`; `none` models `NaN` (Invalid Date). -/
  parseDateString : String → Option Int
  /-- `Date.now()` in milliseconds (constant within one call). -/
  nowMs : Int

/-- `new Date(v).getTime()` for a payload value `v`: numbers are taken as
milliseconds since epoch, strings go through the engine's date parser,
booleans/null via `ToNumber`, objects/arrays via `ToPrimitive` (their
string form) and then the date parser.  `none` models `NaN`. -/
def newDateMs (rt : JsRuntime) : JsValue → Option Int
  | .num n => some n
  | .str s => rt.parseDateString s
  | .bool b => some (if b then 1 else 0)
  | .null => some 0
  | .arr es => rt.parseDateString (jsToString (.arr es))
  | .obj fs => rt.parseDateString (jsToString (.obj fs))

/-! ## Verification results (`src/types.ts`)

`WebhookVerificationResult` is a discriminated union of object literals;
we model the runtime object shape directly, with `none` for fields a
branch does not set.  This keeps "payload present iff ok" a statement
about the pipeline rather than an artifact of the embedding. -/

structure VerificationResult where
  ok : Bool
  provider : Option String
  code : Option String
  message : Option String
  payload : Option JsValue

/-! ## Provider verifiers -/

def PAYSTACK_SIGNATURE_HEADER : String := "x-paystack-signature"

def FLUTTERWAVE_SIGNATURE_HEADER : String := "verif-hash"

structure VerifyOptions where
  parseJson : Option Bool := none
  signatureHeader : Option String := none

structure VerifyPaystackWebhookInput where
  rawBody : String
  secret : String
  signature : Option String := none
  headers : Option HttpHeaders := none

structure VerifyFlutterwaveWebhookInput where
  rawBody : String
  secretHash : String
  signature : Option String := none
  headers : Option HttpHeaders := none

/-- `input.signature ?? (input.headers ? getHeader(input.headers, h) : undefined)`. -/
def sigFromInput (sig : Option String) (headers : Option HttpHeaders)
    (name : String) : Option String :=
  match sig with
  | some s => some s
  | none =>
    match headers with
    | some h => getHeader h name
    | none => none

/-- `computePaystackSignature`: hex HMAC-SHA512 of the exact raw body
bytes under the secret (`src/paystack/verify.ts`). -/
def computePaystackSignature (rt : JsRuntime)
    (rawBody : String) (secret : String) : String :=
  hexEncode (rt.hmacSha512 secret rawBody)

/-- The `Failure{MissingHeader}` object literal of a provider verifier. -/
def missingHeaderResult (provider header : String) : VerificationResult :=
  { ok := false, provider := some provider,
    code := some "PAYHOOK_MISSING_HEADER",
    message := some ("Missing required header: " ++ header), payload := none }

/-- The `Failure{InvalidSignature}` object literal of a provider verifier. -/
def invalidSignatureResult (provider message : String) : VerificationResult :=
  { ok := false, provider := some provider,
    code := some "PAYHOOK_INVALID_SIGNATURE",
    message := some message, payload := none }

/-- The `Failure{InvalidJson}` object literal of a provider verifier. -/
def invalidJsonResult (provider : String) : VerificationResult :=
  { ok := false, provider := some provider,
    code := some "PAYHOOK_INVALID_JSON",
    message := some "Invalid JSON payload", payload := none }

/-- The `Success{provider, payload}` object literal. -/
def successResult (provider : String) (payload : JsValue) : VerificationResult :=
  { ok := true, provider := some provider, code := none,
    message := none, payload := some payload }

/-- `verifyPaystackWebhook` (`src/paystack/verify.ts`): extract the
signature (explicit value, else case-insensitive header lookup), reject a
missing/empty one, compare the hex HMAC-SHA512 of the raw body with the
timing-safe hex comparator, then JSON-parse unless `parseJson === false`. -/
def verifyPaystackWebhook (rt : JsRuntime)
    (input : VerifyPaystackWebhookInput) (options : VerifyOptions) :
    VerificationResult :=
  let signatureHeader := options.signatureHeader.getD PAYSTACK_SIGNATURE_HEADER
  match sigFromInput input.signature input.headers signatureHeader with
  | none => missingHeaderResult "paystack" signatureHeader
  | some s =>
    if s = "" then missingHeaderResult "paystack" signatureHeader
    else
      let expected := computePaystackSignature rt input.rawBody input.secret
      if timingSafeEqualHex expected s = false then
        invalidSignatureResult "paystack" "Invalid Paystack webhook signature"
      else
        let rawString := input.rawBody
        if options.parseJson = some false then
          successResult "paystack" (JsValue.str rawString)
        else
          match rt.jsonParse rawString with
          | some parsed => successResult "paystack" parsed
          | none => invalidJsonResult "paystack"

/-- `verifyFlutterwaveWebhook` (`src/flutterwave/verify.ts`): identical
shape, but the signature step is a timing-safe *string* comparison of the
header value against the configured secret hash — no hash over the body. -/
def verifyFlutterwaveWebhook (rt : JsRuntime)
    (input : VerifyFlutterwaveWebhookInput) (options : VerifyOptions) :
    VerificationResult :=
  let signatureHeader := options.signatureHeader.getD FLUTTERWAVE_SIGNATURE_HEADER
  match sigFromInput input.signature input.headers signatureHeader with
  | none => missingHeaderResult "flutterwave" signatureHeader
  | some s =>
    if s = "" then missingHeaderResult "flutterwave" signatureHeader
    else
      if timingSafeEqualStrings s input.secretHash = false then
        invalidSignatureResult "flutterwave" "Invalid Flutterwave webhook signature"
      else
        let rawString := input.rawBody
        if options.parseJson = some false then
          successResult "flutterwave" (JsValue.str rawString)
        else
          match rt.jsonParse rawString with
          | some parsed => successResult "flutterwave" parsed
          | none => invalidJsonResult "flutterwave"

/-! ## The in-memory idempotency store (`InMemoryIdempotencyStore`)

The `Map<string, number>` of key → expiry instant (ms) is modelled as an
association list with pairwise-distinct keys on reachable states; the
current time is passed explicitly for each `Date.now()` call. -/

namespace InMemoryIdempotencyStore

abbrev MemStore := List (String × Int)

/-- `Map.set`: overwrite the existing entry in place, else append. -/
def mapSet (s : MemStore) (k : String) (v : Int) : MemStore :=
  match s with
  | [] => [(k, v)]
  | (k', v') :: rest =>
    if k' = k then (k, v) :: rest else (k', v') :: mapSet rest k v

/-- `recordIfAbsent(key, ttlSeconds)`: in one atomic step, treat an entry
whose expiry is still in the future as present (return `false`), otherwise
insert/overwrite with `now + ttlSeconds * 1000` and return `true`. -/
def recordIfAbsent (now : Int) (key : String) (ttlSeconds : Int)
    (s : MemStore) : Bool × MemStore :=
  match s.lookup key with
  | some existing =>
    if now ≤ existing then (false, s)
    else (true, mapSet s key (now + ttlSeconds * 1000))
  | none => (true, mapSet s key (now + ttlSeconds * 1000))

/-- The periodic `cleanup` sweep: delete entries whose expiry has passed. -/
def cleanup (now : Int) (s : MemStore) : MemStore :=
  s.filter (fun kv => !(now > kv.2))

end InMemoryIdempotencyStore

/-! ## The unified pipeline (`verify`)

The canonical pipeline (the `verify` whose documented order is
detection → signature → freshness → idempotency, exercised by the
repository's ordering test): detection requires the provider's signature
header to be present *and* its secret material to be configured; the
idempotency store, when configured, is the in-memory store above. -/

structure PayhookConfig where
  paystackSecret : Option String := none
  flutterwaveSecretHash : Option String := none
  /-- Whether an idempotency store is configured (the in-memory store). -/
  idempotencyStore : Bool := false
  idempotencyTTL : Option Int := none
  maxAgeSeconds : Option Int := none

open InMemoryIdempotencyStore in
/-- Step 1 of `verify`: provider detection plus signature verification.
`none` is the `UNKNOWN_PROVIDER` fall-through. -/
def detectAndVerify (rt : JsRuntime) (rawBody : String)
    (headers : HttpHeaders) (cfg : PayhookConfig) : Option VerificationResult :=
  if truthyStrOpt (getHeader headers PAYSTACK_SIGNATURE_HEADER)
      && truthyStrOpt cfg.paystackSecret then
    some (verifyPaystackWebhook rt
      { rawBody := rawBody, secret := cfg.paystackSecret.getD "",
        signature := none, headers := some headers } {})
  else if truthyStrOpt (getHeader headers FLUTTERWAVE_SIGNATURE_HEADER)
      && truthyStrOpt cfg.flutterwaveSecretHash then
    some (verifyFlutterwaveWebhook rt
      { rawBody := rawBody, secretHash := cfg.flutterwaveSecretHash.getD "",
        signature := none, headers := some headers } {})
  else none

/-- `extractEventId`: `payload?.data?.id`, rejecting only `undefined` and
`null`, prefixed with the provider name. -/
def extractEventId (provider : String) (payload : JsValue) : Option String :=
  match optField (optField (some payload) "data") "id" with
  | none => none
  | some .null => none
  | some v => some (provider ++ ":" ++ jsToString v)

/-- `extractTimestamp`: provider-specific field lookup
(`data.created_at || data.paid_at` for Paystack, `data.created_at` for
Flutterwave); a falsy value yields `undefined` (outer `none`), a truthy
one yields `new Date(ts)` whose time may be `NaN` (inner `none`). -/
def extractTimestamp (rt : JsRuntime) (provider : String) (payload : JsValue) :
    Option (Option Int) :=
  if provider = "paystack" then
    match jsOr (optField (optField (some payload) "data") "created_at")
               (optField (optField (some payload) "data") "paid_at") with
    | some v => if truthy v then some (newDateMs rt v) else none
    | none => none
  else if provider = "flutterwave" then
    match optField (optField (some payload) "data") "created_at" with
    | some v => if truthy v then some (newDateMs rt v) else none
    | none => none
  else none

/-- `Math.round` on the (rational) age in seconds. -/
def jsRound (q : ℚ) : Int := ⌊q + 1/2⌋

/-- The freshness gate's decision: `some age` when the event must be
rejected as stale (a timestamp was extracted, its time is a number, and
`(now - t)/1000 > maxAge`); `none` otherwise.  An `Invalid Date`
(`getTime()` = `NaN`) makes `age > maxAge` false, so it never rejects. -/
def staleAge (rt : JsRuntime) (maxAge : Int) (provider : String)
    (payload : JsValue) : Option ℚ :=
  match extractTimestamp rt provider payload with
  | some (some t) =>
    let ageSeconds : ℚ := Rat.divInt (rt.nowMs - t) 1000
    if ageSeconds > Rat.divInt maxAge 1 then some ageSeconds else none
  | some none => none
  | none => none

/-- The `Failure{StaleEvent}` object literal of the pipeline. -/
def staleEventResult (provider : String) (age : ℚ) (maxAge : Int) :
    VerificationResult :=
  { ok := false, provider := some provider,
    code := some "PAYHOOK_STALE_EVENT",
    message := some ("Event is " ++ toString (jsRound age) ++
      "s old, exceeds max age of " ++ toString maxAge ++ "s"),
    payload := none }

/-- The `Failure{ReplayAttack}` object literal of the pipeline. -/
def replayAttackResult (provider eventId : String) : VerificationResult :=
  { ok := false, provider := some provider,
    code := some "PAYHOOK_REPLAY_ATTACK",
    message := some ("Duplicate event ID detected: " ++ eventId),
    payload := none }

/-- The `Failure{UnknownProvider}` object literal (no `provider` field). -/
def unknownProviderResult : VerificationResult :=
  { ok := false, provider := none,
    code := some "PAYHOOK_UNKNOWN_PROVIDER",
    message := some "Could not detect webhook provider from headers",
    payload := none }

/-- Step 3 of `verify`: the freshness gate's verdict, `some (age, m)`
exactly when the event must be rejected as stale.  The gate runs only
when `config.maxAgeSeconds` is truthy (so `0` disables it). -/
def staleGate (rt : JsRuntime) (cfg : PayhookConfig) (provider : String)
    (payload : JsValue) : Option (ℚ × Int) :=
  match cfg.maxAgeSeconds with
  | some m =>
    if m ≠ 0 then (staleAge rt m provider payload).map (fun a => (a, m))
    else none
  | none => none

open InMemoryIdempotencyStore in
/-- Step 4 of `verify`: when a store is configured, `recordIfAbsent` the
provider-prefixed event id with `config.idempotencyTTL ?? 600`
(`false` → `ReplayAttack`); skip when no id can be extracted. -/
def idempotencyGate (rt : JsRuntime) (cfg : PayhookConfig) (provider : String)
    (payload : JsValue) (store : MemStore) (result : VerificationResult) :
    VerificationResult × MemStore :=
  if cfg.idempotencyStore then
    match extractEventId provider payload with
    | some eventId =>
      let r := recordIfAbsent rt.nowMs eventId (cfg.idempotencyTTL.getD 600) store
      if r.1 = false then (replayAttackResult provider eventId, r.2)
      else (result, r.2)
    | none => (result, store)
  else (result, store)

open InMemoryIdempotencyStore in
/-- The unified `verify` pipeline over the in-memory store state:
1. detect the provider and verify its signature (→ `UnknownProvider` when
   no configured provider's header is present);
2. stop on any verifier failure;
3. when `maxAgeSeconds` is truthy, reject stale events *before* recording;
4. only then run the idempotency gate. -/
def verify (rt : JsRuntime) (rawBody : String) (headers : HttpHeaders)
    (cfg : PayhookConfig) (store : MemStore) :
    VerificationResult × MemStore :=
  match detectAndVerify rt rawBody headers cfg with
  | none => (unknownProviderResult, store)
  | some result =>
    if result.ok = false then (result, store)
    else
      let provider := result.provider.getD ""
      let payload := result.payload.getD JsValue.null
      match staleGate rt cfg provider payload with
      | some (age, m) => (staleEventResult provider age m, store)
      | none => idempotencyGate rt cfg provider payload store result

/-! ## Concrete fixtures used by the witness theorems -/

/-- A stand-in HMAC oracle for concrete runs: digest determined by the
message's byte length (64 bytes, each < 256, as the real digest is). -/
def constHmac : String → String → List Nat :=
  fun _k m => (m.utf8ByteSize % 256) :: List.replicate 63 0

/-- Build a concrete runtime from a JSON oracle, a date oracle and a clock. -/
def mkRt (json : String → Option JsValue) (dates : String → Option Int)
    (now : Int) : JsRuntime where
  hmacSha512 := constHmac
  hmac_len := by intro k m; simp [constHmac]
  hmac_lt := by
    intro k m b hb
    simp only [constHmac, List.mem_cons] at hb
    rcases hb with h | h
    · subst h; exact Nat.mod_lt _ (by norm_num)
    · rw [List.eq_of_mem_replicate h]; norm_num
  jsonParse := json
  parseDateString := dates
  nowMs := now

/-- A parsed webhook whose event timestamp (1s after epoch) is far in the past. -/
def stalePayload : JsValue :=
  .obj [("event", .str "charge.success"),
        ("data", .obj [("id", .num 77777), ("created_at", .num 1000)])]

/-- The same event id with a timestamp 5 seconds before the fixture clock. -/
def freshPayload : JsValue :=
  .obj [("event", .str "charge.success"),
        ("data", .obj [("id", .num 77777), ("created_at", .num 9995000)])]

/-- A payload whose timestamp field is present but not a parsable date. -/
def garbagePayload : JsValue :=
  .obj [("data", .obj [("id", .num 5), ("created_at", .str "not-a-date")])]

/-- A payload whose timestamp field is falsy (`0`), with no fallback. -/
def zeroTsPayload : JsValue :=
  .obj [("data", .obj [("id", .num 9), ("created_at", .num 0)])]

def fixtureJson : String → Option JsValue := fun s =>
  if s = "stale" then some stalePayload
  else if s = "fresh" then some freshPayload
  else if s = "objbody" then some (.obj [])
  else if s = "gar" then some garbagePayload
  else none

def fixtureRt : JsRuntime := mkRt fixtureJson (fun _ => none) 10000000

def fixtureHeaders : HttpHeaders :=
  [("x-paystack-signature", .str (computePaystackSignature fixtureRt "stale" "sk"))]

def fixtureCfg : PayhookConfig :=
  { paystackSecret := some "sk", idempotencyStore := true, maxAgeSeconds := some 300 }

/-- Headers carrying a Paystack signature for a config with no Paystack secret. -/
def unknownHeaders : HttpHeaders := [("x-paystack-signature", .str "abc")]

def unknownCfg : PayhookConfig := { flutterwaveSecretHash := some "fwhash" }

/-! ## Lemmas about hex encoding and the comparators -/

theorem hexDigitVal_hexChar : ∀ n, n < 16 → hexDigitVal (hexChar n) = some n := by
  decide

theorem hexDecodeAux_encode (bs : List Nat) (t : List Char)
    (hb : ∀ b ∈ bs, b < 256) :
    hexDecodeAux ((bs.map hexEncodeByte).flatten ++ t) = bs ++ hexDecodeAux t := by
  induction bs with
  | nil => simp
  | cons b rest ih =>
    have hb256 : b < 256 := hb b (List.mem_cons_self _ _)
    have h1 : b / 16 % 16 < 16 := Nat.mod_lt _ (by norm_num)
    have h2 : b % 16 < 16 := Nat.mod_lt _ (by norm_num)
    simp only [List.map_cons, List.flatten_cons, hexEncodeByte,
      List.cons_append, List.append_assoc]
    rw [hexDecodeAux, hexDigitVal_hexChar _ h1, hexDigitVal_hexChar _ h2]
    have hdiv : b / 16 % 16 = b / 16 := Nat.mod_eq_of_lt (by omega)
    have hbyte : 16 * (b / 16 % 16) + b % 16 = b := by rw [hdiv]; omega
    dsimp only
    rw [hbyte, List.nil_append, ih (fun x hx => hb x (List.mem_cons_of_mem _ hx))]

theorem data_append (a b : String) : (a ++ b).data = a.data ++ b.data := rfl

theorem hexDecodeAux_nil : hexDecodeAux [] = [] := rfl

theorem bufferFromHex_hexEncode (bs : List Nat) (hb : ∀ b ∈ bs, b < 256) :
    bufferFromHex (hexEncode bs) = bs := by
  have := hexDecodeAux_encode bs [] hb
  simpa [bufferFromHex, hexEncode, hexDecodeAux_nil] using this

theorem bufferFromHex_hexEncode_append (bs : List Nat) (t : String)
    (hb : ∀ b ∈ bs, b < 256) (ht : hexDecodeAux t.data = []) :
    bufferFromHex (hexEncode bs ++ t) = bs := by
  have := hexDecodeAux_encode bs t.data hb
  simp [bufferFromHex, data_append, hexEncode, this, ht]

theorem hexEncode_data_length (bs : List Nat) :
    (hexEncode bs).data.length = 2 * bs.length := by
  induction bs with
  | nil => rfl
  | cons b rest ih =>
    simp only [hexEncode, List.map_cons, List.flatten_cons,
      List.length_append] at ih ⊢
    rw [ih]
    simp [hexEncodeByte]
    omega

theorem hexEncode_append_ne_empty (bs : List Nat) (t : String)
    (hbs : bs ≠ []) : hexEncode bs ++ t ≠ "" := by
  intro h
  have hd : (hexEncode bs ++ t).data = ([] : List Char) := by rw [h]
  rw [data_append] at hd
  have hlen := congrArg List.length hd
  rw [List.length_append, hexEncode_data_length] at hlen
  simp only [List.length_nil] at hlen
  have : bs.length = 0 := by omega
  exact hbs (List.length_eq_zero.mp this)

theorem hexEncode_ne_empty (bs : List Nat) (hbs : bs ≠ []) :
    hexEncode bs ≠ "" := by
  have := hexEncode_append_ne_empty bs "" hbs
  simpa using this

theorem timingSafeEqualHex_eq_true_iff (a b : String) :
    timingSafeEqualHex a b = true ↔ bufferFromHex a = bufferFromHex b := by
  by_cases h : (bufferFromHex a).length = (bufferFromHex b).length
  · simp [timingSafeEqualHex, h]
  · simp only [timingSafeEqualHex, h, ne_eq, not_false_eq_true, if_true]
    constructor
    · intro hfalse; exact absurd hfalse (by simp)
    · intro heq; exact absurd (by rw [heq]) h

theorem timingSafeEqualHex_length_ne (a b : String)
    (h : (bufferFromHex a).length ≠ (bufferFromHex b).length) :
    timingSafeEqualHex a b = false := by
  simp [timingSafeEqualHex, h]

theorem timingSafeEqualStrings_eq_true_iff (a b : String) :
    timingSafeEqualStrings a b = true ↔ a = b := by
  by_cases h : a.utf8ByteSize = b.utf8ByteSize
  · simp [timingSafeEqualStrings, h]
  · simp only [timingSafeEqualStrings, h, ne_eq, not_false_eq_true, if_true]
    constructor
    · intro hfalse; exact absurd hfalse (by simp)
    · intro heq; exact absurd (by rw [heq]) h

/-- `Rat.divInt a 1000` is the exact rational `(a : ℚ) / 1000` the
pipeline's `ageSeconds = (Date.now() - t) / 1000` denotes. -/
theorem divInt_1000_eq (a : Int) : Rat.divInt a 1000 = (a : ℚ) / 1000 := by
  rw [Rat.divInt_eq_div]
  norm_num

/-- `Rat.divInt m 1` is the integer `m` as a rational. -/
theorem divInt_one_eq (m : Int) : Rat.divInt m 1 = (m : ℚ) := by
  simp [Rat.divInt_eq_div]

/-! ## Lemmas about the in-memory store -/

namespace InMemoryIdempotencyStore

theorem lookup_mapSet_self (s : MemStore) (k : String) (v : Int) :
    (mapSet s k v).lookup k = some v := by
  induction s with
  | nil => simp [mapSet, List.lookup]
  | cons kv rest ih =>
    obtain ⟨k', v'⟩ := kv
    by_cases h : k' = k
    · simp [mapSet, h, List.lookup]
    · simp only [mapSet, h, if_false]
      rw [List.lookup]
      have : (k == k') = false := by
        simp [beq_eq_false_iff_ne]
        exact fun he => h he.symm
      rw [this]
      exact ih

theorem lookup_eq_none_of_not_mem (s : MemStore) (k : String)
    (h : k ∉ s.map Prod.fst) : s.lookup k = none := by
  induction s with
  | nil => rfl
  | cons kv rest ih =>
    obtain ⟨k', v'⟩ := kv
    simp only [List.map_cons, List.mem_cons] at h
    push_neg at h
    rw [List.lookup]
    have : (k == k') = false := by simp [beq_eq_false_iff_ne, h.1]
    rw [this]
    exact ih h.2

theorem keys_mapSet_of_mem (s : MemStore) (k : String) (v : Int)
    (h : k ∈ s.map Prod.fst) :
    (mapSet s k v).map Prod.fst = s.map Prod.fst := by
  induction s with
  | nil => simp at h
  | cons kv rest ih =>
    obtain ⟨k', v'⟩ := kv
    by_cases hk : k' = k
    · simp [mapSet, hk]
    · simp only [List.map_cons, List.mem_cons] at h
      rcases h with h | h
      · exact absurd h.symm hk
      · simp [mapSet, hk, ih h]

theorem keys_mapSet_of_not_mem (s : MemStore) (k : String) (v : Int)
    (h : k ∉ s.map Prod.fst) :
    (mapSet s k v).map Prod.fst = s.map Prod.fst ++ [k] := by
  induction s with
  | nil => simp [mapSet]
  | cons kv rest ih =>
    obtain ⟨k', v'⟩ := kv
    simp only [List.map_cons, List.mem_cons] at h
    push_neg at h
    have : k' ≠ k := fun he => h.1 he.symm
    simp [mapSet, this, ih h.2]

theorem nodup_keys_mapSet (s : MemStore) (k : String) (v : Int)
    (h : (s.map Prod.fst).Nodup) : ((mapSet s k v).map Prod.fst).Nodup := by
  by_cases hm : k ∈ s.map Prod.fst
  · rw [keys_mapSet_of_mem s k v hm]; exact h
  · rw [keys_mapSet_of_not_mem s k v hm]
    simp [List.nodup_append, h, hm]

theorem lookup_filter_of_nodup (s : MemStore) (p : String × Int → Bool)
    (k : String) (h : (s.map Prod.fst).Nodup) :
    (s.filter p).lookup k =
      match s.lookup k with
      | some v => if p (k, v) then some v else none
      | none => none := by
  induction s with
  | nil => rfl
  | cons kv rest ih =>
    obtain ⟨k', v'⟩ := kv
    simp only [List.map_cons, List.nodup_cons] at h
    by_cases hk : k = k'
    · subst hk
      rw [List.filter]
      cases hp : p (k, v') with
      | true =>
        simp [List.lookup, hp]
      | false =>
        simp only [List.lookup, beq_self_eq_true, hp]
        have hnot : k ∉ (rest.filter p).map Prod.fst := by
          intro hmem
          apply h.1
          obtain ⟨pair, hpair, hfst⟩ := List.mem_map.mp hmem
          exact List.mem_map.mpr ⟨pair, List.mem_of_mem_filter hpair, hfst⟩
        simp [lookup_eq_none_of_not_mem _ _ hnot]
    · have hbeq : (k == k') = false := by simp [beq_eq_false_iff_ne, hk]
      rw [List.filter]
      cases hp : p (k', v') with
      | true =>
        rw [List.lookup, hbeq, List.lookup, hbeq]
        exact ih h.2
      | false =>
        rw [List.lookup, hbeq]
        exact ih h.2

end InMemoryIdempotencyStore

/-! ## Case analyses of the provider verifiers -/

theorem paystack_shape (rt : JsRuntime) (inp : VerifyPaystackWebhookInput)
    (opts : VerifyOptions) :
    (verifyPaystackWebhook rt inp opts =
        missingHeaderResult "paystack" (opts.signatureHeader.getD PAYSTACK_SIGNATURE_HEADER) ∧
      (sigFromInput inp.signature inp.headers
          (opts.signatureHeader.getD PAYSTACK_SIGNATURE_HEADER) = none ∨
       sigFromInput inp.signature inp.headers
          (opts.signatureHeader.getD PAYSTACK_SIGNATURE_HEADER) = some "")) ∨
    (∃ s, sigFromInput inp.signature inp.headers
        (opts.signatureHeader.getD PAYSTACK_SIGNATURE_HEADER) = some s ∧ s ≠ "" ∧
      ((timingSafeEqualHex (computePaystackSignature rt inp.rawBody inp.secret) s = false ∧
        verifyPaystackWebhook rt inp opts =
          invalidSignatureResult "paystack" "Invalid Paystack webhook signature") ∨
       (timingSafeEqualHex (computePaystackSignature rt inp.rawBody inp.secret) s = true ∧
        ((opts.parseJson = some false ∧
          verifyPaystackWebhook rt inp opts =
            successResult "paystack" (JsValue.str inp.rawBody)) ∨
         (opts.parseJson ≠ some false ∧ (∃ p, rt.jsonParse inp.rawBody = some p ∧
          verifyPaystackWebhook rt inp opts = successResult "paystack" p)) ∨
         (opts.parseJson ≠ some false ∧ rt.jsonParse inp.rawBody = none ∧
          verifyPaystackWebhook rt inp opts = invalidJsonResult "paystack"))))) := by
  simp only [verifyPaystackWebhook]
  cases hsig : sigFromInput inp.signature inp.headers
      (opts.signatureHeader.getD PAYSTACK_SIGNATURE_HEADER) with
  | none => exact Or.inl ⟨rfl, Or.inl rfl⟩
  | some s =>
    by_cases hse : s = ""
    · subst hse
      exact Or.inl ⟨by simp, Or.inr rfl⟩
    · refine Or.inr ⟨s, rfl, hse, ?_⟩
      by_cases hcmp : timingSafeEqualHex
          (computePaystackSignature rt inp.rawBody inp.secret) s = false
      · exact Or.inl ⟨hcmp, by simp [hse, hcmp]⟩
      · have hcmp' : timingSafeEqualHex
            (computePaystackSignature rt inp.rawBody inp.secret) s = true := by
          revert hcmp; cases timingSafeEqualHex
            (computePaystackSignature rt inp.rawBody inp.secret) s <;> simp
        refine Or.inr ⟨hcmp', ?_⟩
        by_cases hpj : opts.parseJson = some false
        · exact Or.inl ⟨hpj, by simp [hse, hcmp', hpj]⟩
        · cases hjs : rt.jsonParse inp.rawBody with
          | some p =>
            exact Or.inr (Or.inl ⟨hpj, p, rfl, by simp [hse, hcmp', hpj, hjs]⟩)
          | none =>
            exact Or.inr (Or.inr ⟨hpj, rfl, by simp [hse, hcmp', hpj, hjs]⟩)

theorem flutterwave_shape (rt : JsRuntime) (inp : VerifyFlutterwaveWebhookInput)
    (opts : VerifyOptions) :
    (verifyFlutterwaveWebhook rt inp opts =
        missingHeaderResult "flutterwave" (opts.signatureHeader.getD FLUTTERWAVE_SIGNATURE_HEADER) ∧
      (sigFromInput inp.signature inp.headers
          (opts.signatureHeader.getD FLUTTERWAVE_SIGNATURE_HEADER) = none ∨
       sigFromInput inp.signature inp.headers
          (opts.signatureHeader.getD FLUTTERWAVE_SIGNATURE_HEADER) = some "")) ∨
    (∃ s, sigFromInput inp.signature inp.headers
        (opts.signatureHeader.getD FLUTTERWAVE_SIGNATURE_HEADER) = some s ∧ s ≠ "" ∧
      ((timingSafeEqualStrings s inp.secretHash = false ∧
        verifyFlutterwaveWebhook rt inp opts =
          invalidSignatureResult "flutterwave" "Invalid Flutterwave webhook signature") ∨
       (timingSafeEqualStrings s inp.secretHash = true ∧
        ((opts.parseJson = some false ∧
          verifyFlutterwaveWebhook rt inp opts =
            successResult "flutterwave" (JsValue.str inp.rawBody)) ∨
         (opts.parseJson ≠ some false ∧ (∃ p, rt.jsonParse inp.rawBody = some p ∧
          verifyFlutterwaveWebhook rt inp opts = successResult "flutterwave" p)) ∨
         (opts.parseJson ≠ some false ∧ rt.jsonParse inp.rawBody = none ∧
          verifyFlutterwaveWebhook rt inp opts = invalidJsonResult "flutterwave"))))) := by
  simp only [verifyFlutterwaveWebhook]
  cases hsig : sigFromInput inp.signature inp.headers
      (opts.signatureHeader.getD FLUTTERWAVE_SIGNATURE_HEADER) with
  | none => exact Or.inl ⟨rfl, Or.inl rfl⟩
  | some s =>
    by_cases hse : s = ""
    · subst hse
      exact Or.inl ⟨by simp, Or.inr rfl⟩
    · refine Or.inr ⟨s, rfl, hse, ?_⟩
      by_cases hcmp : timingSafeEqualStrings s inp.secretHash = false
      · exact Or.inl ⟨hcmp, by simp [hse, hcmp]⟩
      · have hcmp' : timingSafeEqualStrings s inp.secretHash = true := by
          revert hcmp; cases timingSafeEqualStrings s inp.secretHash <;> simp
        refine Or.inr ⟨hcmp', ?_⟩
        by_cases hpj : opts.parseJson = some false
        · exact Or.inl ⟨hpj, by simp [hse, hcmp', hpj]⟩
        · cases hjs : rt.jsonParse inp.rawBody with
          | some p =>
            exact Or.inr (Or.inl ⟨hpj, p, rfl, by simp [hse, hcmp', hpj, hjs]⟩)
          | none =>
            exact Or.inr (Or.inr ⟨hpj, rfl, by simp [hse, hcmp', hpj, hjs]⟩)

/-! ## Claim C2 -/

open InMemoryIdempotencyStore in
/-- C2: for every key `K` and `ttl`, `recordIfAbsent(K, ttl)` on the
in-memory idempotency store returns `true` on the first call (when `K` is
not live), `false` on any later call with the same `K` made before `ttl`
seconds have elapsed, and `true` again on a call made after `ttl` seconds
have elapsed — and the second and third answers are the same whether or
not a cleanup sweep ran in between, because the check re-validates expiry. -/
theorem claim2_recordIfAbsent_ttl_window
    (s : MemStore) (k : String) (ttl now1 now2 now3 t2 t3 : Int)
    (hnd : (s.map Prod.fst).Nodup)
    (hfree : ∀ e, s.lookup k = some e → e < now1)
    (h2 : now2 < now1 + ttl * 1000)
    (h3 : now3 > now1 + ttl * 1000)
    (ht2 : t2 ≤ now2) (_ht3 : t3 ≤ now3) :
    (recordIfAbsent now1 k ttl s).1 = true ∧
    (recordIfAbsent now2 k ttl (recordIfAbsent now1 k ttl s).2).1 = false ∧
    (recordIfAbsent now3 k ttl (recordIfAbsent now1 k ttl s).2).1 = true ∧
    (recordIfAbsent now2 k ttl (cleanup t2 (recordIfAbsent now1 k ttl s).2)).1 = false ∧
    (recordIfAbsent now3 k ttl (cleanup t3 (recordIfAbsent now1 k ttl s).2)).1 = true := by
  have hr1 : recordIfAbsent now1 k ttl s =
      (true, mapSet s k (now1 + ttl * 1000)) := by
    unfold recordIfAbsent
    cases hl : s.lookup k with
    | none => rfl
    | some e =>
      have he := hfree e hl
      simp [show ¬(now1 ≤ e) by omega]
  have hlook : (mapSet s k (now1 + ttl * 1000)).lookup k =
      some (now1 + ttl * 1000) := lookup_mapSet_self s k _
  have hnd' : ((mapSet s k (now1 + ttl * 1000)).map Prod.fst).Nodup :=
    nodup_keys_mapSet s k _ hnd
  refine ⟨by rw [hr1], ?_, ?_, ?_, ?_⟩
  · rw [hr1]
    unfold recordIfAbsent
    rw [hlook]
    simp [show now2 ≤ now1 + ttl * 1000 by omega]
  · rw [hr1]
    unfold recordIfAbsent
    rw [hlook]
    simp [show ¬(now3 ≤ now1 + ttl * 1000) by omega]
  · rw [hr1]
    unfold recordIfAbsent cleanup
    rw [lookup_filter_of_nodup _ _ _ hnd', hlook]
    have hp : (!decide (t2 > now1 + ttl * 1000)) = true := by
      simp; omega
    simp only [hp, if_true]
    simp [show now2 ≤ now1 + ttl * 1000 by omega]
  · rw [hr1]
    unfold recordIfAbsent cleanup
    rw [lookup_filter_of_nodup _ _ _ hnd', hlook]
    by_cases hgone : t3 > now1 + ttl * 1000
    · have hp : (!decide (t3 > now1 + ttl * 1000)) = false := by simp [hgone]
      simp only [hp, Bool.false_eq_true, if_false]
    · have hp : (!decide (t3 > now1 + ttl * 1000)) = true := by simp; omega
      simp only [hp, if_true]
      simp [show ¬(now3 ≤ now1 + ttl * 1000) by omega]

open InMemoryIdempotencyStore in
theorem claim2_recordIfAbsent_ttl_window_witness :
    (recordIfAbsent 0 "paystack:1" 10 ([] : MemStore)).1 = true ∧
    (recordIfAbsent 5000 "paystack:1" 10
      (recordIfAbsent 0 "paystack:1" 10 ([] : MemStore)).2).1 = false ∧
    (recordIfAbsent 10001 "paystack:1" 10
      (recordIfAbsent 0 "paystack:1" 10 ([] : MemStore)).2).1 = true ∧
    (recordIfAbsent 5000 "paystack:1" 10
      (cleanup 0 (recordIfAbsent 0 "paystack:1" 10 ([] : MemStore)).2)).1 = false ∧
    (recordIfAbsent 10001 "paystack:1" 10
      (cleanup 10001 (recordIfAbsent 0 "paystack:1" 10 ([] : MemStore)).2)).1 = true :=
  claim2_recordIfAbsent_ttl_window [] "paystack:1" 10 0 5000 10001 0 10001
    (by simp) (by simp [List.lookup]) (by decide) (by decide) (by decide) (by decide)

/-! ## Code classification of the verifier outcomes -/

theorem flutterwave_code_invalid_iff (rt : JsRuntime)
    (inp : VerifyFlutterwaveWebhookInput) (opts : VerifyOptions) :
    ((verifyFlutterwaveWebhook rt inp opts).code =
        some "PAYHOOK_INVALID_SIGNATURE") ↔
    (∃ s, sigFromInput inp.signature inp.headers
        (opts.signatureHeader.getD FLUTTERWAVE_SIGNATURE_HEADER) = some s ∧
      s ≠ "" ∧ timingSafeEqualStrings s inp.secretHash = false) := by
  rcases flutterwave_shape rt inp opts with ⟨hr, hsig⟩ | ⟨s, hsig, hne, hcase⟩
  · rw [hr]
    simp only [missingHeaderResult, Option.some.injEq]
    constructor
    · intro h; exact absurd h (by decide)
    · rintro ⟨s', hs', hne', _⟩
      rcases hsig with h0 | h0 <;> rw [h0] at hs'
      · exact Option.noConfusion hs'
      · exact ((hne' (Option.some.inj hs').symm)).elim
  · rcases hcase with ⟨hcmp, hr⟩ | ⟨hcmp, hrest⟩
    · rw [hr]
      constructor
      · intro _; exact ⟨s, hsig, hne, hcmp⟩
      · intro _; rfl
    · have hcodes : (verifyFlutterwaveWebhook rt inp opts).code ≠
          some "PAYHOOK_INVALID_SIGNATURE" := by
        rcases hrest with ⟨_, hr⟩ | ⟨_, _, _, hr⟩ | ⟨_, _, hr⟩ <;> rw [hr] <;>
          simp [successResult, invalidJsonResult]
      constructor
      · intro h; exact absurd h hcodes
      · rintro ⟨s', hs', hne', hcmp'⟩
        rw [hsig] at hs'
        rw [Option.some.inj hs'] at hcmp
        exact Bool.noConfusion (hcmp.symm.trans hcmp')

theorem flutterwave_code_missing_iff (rt : JsRuntime)
    (inp : VerifyFlutterwaveWebhookInput) (opts : VerifyOptions) :
    ((verifyFlutterwaveWebhook rt inp opts).code =
        some "PAYHOOK_MISSING_HEADER") ↔
    (sigFromInput inp.signature inp.headers
        (opts.signatureHeader.getD FLUTTERWAVE_SIGNATURE_HEADER) = none ∨
     sigFromInput inp.signature inp.headers
        (opts.signatureHeader.getD FLUTTERWAVE_SIGNATURE_HEADER) = some "") := by
  rcases flutterwave_shape rt inp opts with ⟨hr, hsig⟩ | ⟨s, hsig, hne, hcase⟩
  · rw [hr]
    constructor
    · intro _; exact hsig
    · intro _; rfl
  · have hrhs : ¬(sigFromInput inp.signature inp.headers
        (opts.signatureHeader.getD FLUTTERWAVE_SIGNATURE_HEADER) = none ∨
      sigFromInput inp.signature inp.headers
        (opts.signatureHeader.getD FLUTTERWAVE_SIGNATURE_HEADER) = some "") := by
      rw [hsig]
      rintro (h0 | h0)
      · exact Option.noConfusion h0
      · exact hne (Option.some.inj h0)
    have hcodes : (verifyFlutterwaveWebhook rt inp opts).code ≠
        some "PAYHOOK_MISSING_HEADER" := by
      rcases hcase with ⟨_, hr⟩ | ⟨_, ⟨_, hr⟩ | ⟨_, _, _, hr⟩ | ⟨_, _, hr⟩⟩ <;>
        rw [hr] <;>
        simp [successResult, invalidJsonResult, invalidSignatureResult]
    constructor
    · intro h; exact absurd h hcodes
    · intro h; exact absurd h hrhs

theorem paystack_code_missing_iff (rt : JsRuntime)
    (inp : VerifyPaystackWebhookInput) (opts : VerifyOptions) :
    ((verifyPaystackWebhook rt inp opts).code =
        some "PAYHOOK_MISSING_HEADER") ↔
    (sigFromInput inp.signature inp.headers
        (opts.signatureHeader.getD PAYSTACK_SIGNATURE_HEADER) = none ∨
     sigFromInput inp.signature inp.headers
        (opts.signatureHeader.getD PAYSTACK_SIGNATURE_HEADER) = some "") := by
  rcases paystack_shape rt inp opts with ⟨hr, hsig⟩ | ⟨s, hsig, hne, hcase⟩
  · rw [hr]
    constructor
    · intro _; exact hsig
    · intro _; rfl
  · have hrhs : ¬(sigFromInput inp.signature inp.headers
        (opts.signatureHeader.getD PAYSTACK_SIGNATURE_HEADER) = none ∨
      sigFromInput inp.signature inp.headers
        (opts.signatureHeader.getD PAYSTACK_SIGNATURE_HEADER) = some "") := by
      rw [hsig]
      rintro (h0 | h0)
      · exact Option.noConfusion h0
      · exact hne (Option.some.inj h0)
    have hcodes : (verifyPaystackWebhook rt inp opts).code ≠
        some "PAYHOOK_MISSING_HEADER" := by
      rcases hcase with ⟨_, hr⟩ | ⟨_, ⟨_, hr⟩ | ⟨_, _, _, hr⟩ | ⟨_, _, hr⟩⟩ <;>
        rw [hr] <;>
        simp [successResult, invalidJsonResult, invalidSignatureResult]
    constructor
    · intro h; exact absurd h hcodes
    · intro h; exact absurd h hrhs

/-! ## Field-level facts about the verifier results -/

theorem paystack_provider_eq (rt : JsRuntime) (inp : VerifyPaystackWebhookInput)
    (opts : VerifyOptions) :
    (verifyPaystackWebhook rt inp opts).provider = some "paystack" := by
  rcases paystack_shape rt inp opts with ⟨hr, _⟩ | ⟨s, _, _,
      ⟨_, hr⟩ | ⟨_, ⟨_, hr⟩ | ⟨_, _, _, hr⟩ | ⟨_, _, hr⟩⟩⟩ <;> rw [hr] <;> rfl

theorem flutterwave_provider_eq (rt : JsRuntime)
    (inp : VerifyFlutterwaveWebhookInput) (opts : VerifyOptions) :
    (verifyFlutterwaveWebhook rt inp opts).provider = some "flutterwave" := by
  rcases flutterwave_shape rt inp opts with ⟨hr, _⟩ | ⟨s, _, _,
      ⟨_, hr⟩ | ⟨_, ⟨_, hr⟩ | ⟨_, _, _, hr⟩ | ⟨_, _, hr⟩⟩⟩ <;> rw [hr] <;> rfl

theorem paystack_ok_code_none (rt : JsRuntime) (inp : VerifyPaystackWebhookInput)
    (opts : VerifyOptions) (h : (verifyPaystackWebhook rt inp opts).ok = true) :
    (verifyPaystackWebhook rt inp opts).code = none := by
  rcases paystack_shape rt inp opts with ⟨hr, _⟩ | ⟨s, _, _,
      ⟨_, hr⟩ | ⟨_, ⟨_, hr⟩ | ⟨_, _, _, hr⟩ | ⟨_, _, hr⟩⟩⟩ <;> rw [hr] <;>
    rw [hr] at h <;>
    first
      | rfl
      | simp [missingHeaderResult, invalidSignatureResult, invalidJsonResult] at h

theorem flutterwave_ok_code_none (rt : JsRuntime)
    (inp : VerifyFlutterwaveWebhookInput) (opts : VerifyOptions)
    (h : (verifyFlutterwaveWebhook rt inp opts).ok = true) :
    (verifyFlutterwaveWebhook rt inp opts).code = none := by
  rcases flutterwave_shape rt inp opts with ⟨hr, _⟩ | ⟨s, _, _,
      ⟨_, hr⟩ | ⟨_, ⟨_, hr⟩ | ⟨_, _, _, hr⟩ | ⟨_, _, hr⟩⟩⟩ <;> rw [hr] <;>
    rw [hr] at h <;>
    first
      | rfl
      | simp [missingHeaderResult, invalidSignatureResult, invalidJsonResult] at h

theorem paystack_code_ne_unknown (rt : JsRuntime)
    (inp : VerifyPaystackWebhookInput) (opts : VerifyOptions) :
    (verifyPaystackWebhook rt inp opts).code ≠ some "PAYHOOK_UNKNOWN_PROVIDER" := by
  rcases paystack_shape rt inp opts with ⟨hr, _⟩ | ⟨s, _, _,
      ⟨_, hr⟩ | ⟨_, ⟨_, hr⟩ | ⟨_, _, _, hr⟩ | ⟨_, _, hr⟩⟩⟩ <;> rw [hr] <;>
    simp [missingHeaderResult, invalidSignatureResult, invalidJsonResult,
      successResult]

theorem flutterwave_code_ne_unknown (rt : JsRuntime)
    (inp : VerifyFlutterwaveWebhookInput) (opts : VerifyOptions) :
    (verifyFlutterwaveWebhook rt inp opts).code ≠ some "PAYHOOK_UNKNOWN_PROVIDER" := by
  rcases flutterwave_shape rt inp opts with ⟨hr, _⟩ | ⟨s, _, _,
      ⟨_, hr⟩ | ⟨_, ⟨_, hr⟩ | ⟨_, _, _, hr⟩ | ⟨_, _, hr⟩⟩⟩ <;> rw [hr] <;>
    simp [missingHeaderResult, invalidSignatureResult, invalidJsonResult,
      successResult]

theorem paystack_ok_iff_payload (rt : JsRuntime)
    (inp : VerifyPaystackWebhookInput) (opts : VerifyOptions) :
    (verifyPaystackWebhook rt inp opts).ok = true ↔
      (verifyPaystackWebhook rt inp opts).payload.isSome = true := by
  rcases paystack_shape rt inp opts with ⟨hr, _⟩ | ⟨s, _, _,
      ⟨_, hr⟩ | ⟨_, ⟨_, hr⟩ | ⟨_, _, _, hr⟩ | ⟨_, _, hr⟩⟩⟩ <;> rw [hr] <;>
    simp [missingHeaderResult, invalidSignatureResult, invalidJsonResult,
      successResult]

theorem flutterwave_ok_iff_payload (rt : JsRuntime)
    (inp : VerifyFlutterwaveWebhookInput) (opts : VerifyOptions) :
    (verifyFlutterwaveWebhook rt inp opts).ok = true ↔
      (verifyFlutterwaveWebhook rt inp opts).payload.isSome = true := by
  rcases flutterwave_shape rt inp opts with ⟨hr, _⟩ | ⟨s, _, _,
      ⟨_, hr⟩ | ⟨_, ⟨_, hr⟩ | ⟨_, _, _, hr⟩ | ⟨_, _, hr⟩⟩⟩ <;> rw [hr] <;>
    simp [missingHeaderResult, invalidSignatureResult, invalidJsonResult,
      successResult]

theorem paystack_payload_default (rt : JsRuntime)
    (inp : VerifyPaystackWebhookInput) :
    (verifyPaystackWebhook rt inp {}).payload =
      (if (verifyPaystackWebhook rt inp {}).ok = true
       then rt.jsonParse inp.rawBody else none) := by
  rcases paystack_shape rt inp {} with ⟨hr, _⟩ | ⟨s, _, _,
      ⟨_, hr⟩ | ⟨hpj, ⟨hpj2, hr⟩ | ⟨_, p, hjs, hr⟩ | ⟨_, hjs, hr⟩⟩⟩
  · rw [hr]; simp [missingHeaderResult]
  · rw [hr]; simp [invalidSignatureResult]
  · exact absurd hpj2 (by simp)
  · rw [hr]; simp [successResult, hjs]
  · rw [hr]; simp [invalidJsonResult]

theorem flutterwave_payload_default (rt : JsRuntime)
    (inp : VerifyFlutterwaveWebhookInput) :
    (verifyFlutterwaveWebhook rt inp {}).payload =
      (if (verifyFlutterwaveWebhook rt inp {}).ok = true
       then rt.jsonParse inp.rawBody else none) := by
  rcases flutterwave_shape rt inp {} with ⟨hr, _⟩ | ⟨s, _, _,
      ⟨_, hr⟩ | ⟨hpj, ⟨hpj2, hr⟩ | ⟨_, p, hjs, hr⟩ | ⟨_, hjs, hr⟩⟩⟩
  · rw [hr]; simp [missingHeaderResult]
  · rw [hr]; simp [invalidSignatureResult]
  · exact absurd hpj2 (by simp)
  · rw [hr]; simp [successResult, hjs]
  · rw [hr]; simp [invalidJsonResult]

theorem paystack_ok_gate (rt : JsRuntime) (inp : VerifyPaystackWebhookInput)
    (h : (verifyPaystackWebhook rt inp {}).ok = true) :
    ∃ s, sigFromInput inp.signature inp.headers PAYSTACK_SIGNATURE_HEADER = some s ∧
      s ≠ "" ∧
      timingSafeEqualHex (computePaystackSignature rt inp.rawBody inp.secret) s = true := by
  rcases paystack_shape rt inp {} with ⟨hr, _⟩ | ⟨s, hsig, hne,
      ⟨_, hr⟩ | ⟨hcmp, _⟩⟩
  · rw [hr] at h; simp [missingHeaderResult] at h
  · rw [hr] at h; simp [invalidSignatureResult] at h
  · exact ⟨s, hsig, hne, hcmp⟩

theorem flutterwave_ok_gate (rt : JsRuntime) (inp : VerifyFlutterwaveWebhookInput)
    (h : (verifyFlutterwaveWebhook rt inp {}).ok = true) :
    ∃ s, sigFromInput inp.signature inp.headers FLUTTERWAVE_SIGNATURE_HEADER = some s ∧
      s ≠ "" ∧ timingSafeEqualStrings s inp.secretHash = true := by
  rcases flutterwave_shape rt inp {} with ⟨hr, _⟩ | ⟨s, hsig, hne,
      ⟨_, hr⟩ | ⟨hcmp, _⟩⟩
  · rw [hr] at h; simp [missingHeaderResult] at h
  · rw [hr] at h; simp [invalidSignatureResult] at h
  · exact ⟨s, hsig, hne, hcmp⟩

/-! ## Facts about provider detection -/

theorem truthyStrOpt_some (o : Option String) (h : truthyStrOpt o = true) :
    ∃ s, o = some s ∧ s ≠ "" := by
  cases o with
  | none => exact absurd h (by simp [truthyStrOpt])
  | some s =>
    refine ⟨s, rfl, ?_⟩
    simpa [truthyStrOpt] using h

theorem sigFromInput_headers (headers : HttpHeaders) (n : String) :
    sigFromInput none (some headers) n = getHeader headers n := rfl

theorem detect_some (rt : JsRuntime) (body : String) (headers : HttpHeaders)
    (cfg : PayhookConfig) (r : VerificationResult)
    (h : detectAndVerify rt body headers cfg = some r) :
    (truthyStrOpt (getHeader headers PAYSTACK_SIGNATURE_HEADER) = true ∧
     truthyStrOpt cfg.paystackSecret = true ∧
     r = verifyPaystackWebhook rt
       { rawBody := body, secret := cfg.paystackSecret.getD "",
         signature := none, headers := some headers } {}) ∨
    (truthyStrOpt (getHeader headers FLUTTERWAVE_SIGNATURE_HEADER) = true ∧
     truthyStrOpt cfg.flutterwaveSecretHash = true ∧
     r = verifyFlutterwaveWebhook rt
       { rawBody := body, secretHash := cfg.flutterwaveSecretHash.getD "",
         signature := none, headers := some headers } {}) := by
  unfold detectAndVerify at h
  split at h
  · rename_i hcond
    rw [Bool.and_eq_true] at hcond
    exact Or.inl ⟨hcond.1, hcond.2, (Option.some.inj h).symm⟩
  · split at h
    · rename_i hcond
      rw [Bool.and_eq_true] at hcond
      exact Or.inr ⟨hcond.1, hcond.2, (Option.some.inj h).symm⟩
    · exact Option.noConfusion h

theorem detect_none (rt : JsRuntime) (body : String) (headers : HttpHeaders)
    (cfg : PayhookConfig)
    (hps : truthyStrOpt (getHeader headers PAYSTACK_SIGNATURE_HEADER) = false ∨
      truthyStrOpt cfg.paystackSecret = false)
    (hfw : truthyStrOpt (getHeader headers FLUTTERWAVE_SIGNATURE_HEADER) = false ∨
      truthyStrOpt cfg.flutterwaveSecretHash = false) :
    detectAndVerify rt body headers cfg = none := by
  unfold detectAndVerify
  have h1 : (truthyStrOpt (getHeader headers PAYSTACK_SIGNATURE_HEADER) &&
      truthyStrOpt cfg.paystackSecret) = false := by
    rcases hps with h | h <;> simp [h]
  have h2 : (truthyStrOpt (getHeader headers FLUTTERWAVE_SIGNATURE_HEADER) &&
      truthyStrOpt cfg.flutterwaveSecretHash) = false := by
    rcases hfw with h | h <;> simp [h]
  simp [h1, h2]

theorem detect_provider (rt : JsRuntime) (body : String) (headers : HttpHeaders)
    (cfg : PayhookConfig) (r : VerificationResult)
    (h : detectAndVerify rt body headers cfg = some r) :
    r.provider = some "paystack" ∨ r.provider = some "flutterwave" := by
  rcases detect_some rt body headers cfg r h with ⟨_, _, hr⟩ | ⟨_, _, hr⟩
  · rw [hr]; exact Or.inl (paystack_provider_eq ..)
  · rw [hr]; exact Or.inr (flutterwave_provider_eq ..)

theorem detect_ok_code_none (rt : JsRuntime) (body : String)
    (headers : HttpHeaders) (cfg : PayhookConfig) (r : VerificationResult)
    (h : detectAndVerify rt body headers cfg = some r) (hok : r.ok = true) :
    r.code = none := by
  rcases detect_some rt body headers cfg r h with ⟨_, _, hr⟩ | ⟨_, _, hr⟩
  · rw [hr] at hok ⊢; exact paystack_ok_code_none _ _ _ hok
  · rw [hr] at hok ⊢; exact flutterwave_ok_code_none _ _ _ hok

theorem detect_code_ne_unknown (rt : JsRuntime) (body : String)
    (headers : HttpHeaders) (cfg : PayhookConfig) (r : VerificationResult)
    (h : detectAndVerify rt body headers cfg = some r) :
    r.code ≠ some "PAYHOOK_UNKNOWN_PROVIDER" := by
  rcases detect_some rt body headers cfg r h with ⟨_, _, hr⟩ | ⟨_, _, hr⟩
  · rw [hr]; exact paystack_code_ne_unknown _ _ _
  · rw [hr]; exact flutterwave_code_ne_unknown _ _ _

theorem detect_code_ne_missing (rt : JsRuntime) (body : String)
    (headers : HttpHeaders) (cfg : PayhookConfig) (r : VerificationResult)
    (h : detectAndVerify rt body headers cfg = some r) :
    r.code ≠ some "PAYHOOK_MISSING_HEADER" := by
  intro hcontra
  rcases detect_some rt body headers cfg r h with ⟨hhd, _, hr⟩ | ⟨hhd, _, hr⟩
  · obtain ⟨sv, hsv, hsvne⟩ := truthyStrOpt_some _ hhd
    rw [hr, paystack_code_missing_iff] at hcontra
    simp only [sigFromInput, Option.getD] at hcontra
    rw [hsv] at hcontra
    rcases hcontra with h0 | h0
    · exact Option.noConfusion h0
    · exact hsvne (Option.some.inj h0)
  · obtain ⟨sv, hsv, hsvne⟩ := truthyStrOpt_some _ hhd
    rw [hr, flutterwave_code_missing_iff] at hcontra
    simp only [sigFromInput, Option.getD] at hcontra
    rw [hsv] at hcontra
    rcases hcontra with h0 | h0
    · exact Option.noConfusion h0
    · exact hsvne (Option.some.inj h0)

theorem detect_ok_iff_payload (rt : JsRuntime) (body : String)
    (headers : HttpHeaders) (cfg : PayhookConfig) (r : VerificationResult)
    (h : detectAndVerify rt body headers cfg = some r) :
    r.ok = true ↔ r.payload.isSome = true := by
  rcases detect_some rt body headers cfg r h with ⟨_, _, hr⟩ | ⟨_, _, hr⟩
  · rw [hr]; exact paystack_ok_iff_payload ..
  · rw [hr]; exact flutterwave_ok_iff_payload ..

theorem detect_payload (rt : JsRuntime) (body : String)
    (headers : HttpHeaders) (cfg : PayhookConfig) (r : VerificationResult)
    (h : detectAndVerify rt body headers cfg = some r) :
    r.payload = (if r.ok = true then rt.jsonParse body else none) := by
  rcases detect_some rt body headers cfg r h with ⟨_, _, hr⟩ | ⟨_, _, hr⟩
  · rw [hr]; exact paystack_payload_default ..
  · rw [hr]; exact flutterwave_payload_default ..

theorem detect_ok_gate (rt : JsRuntime) (body : String)
    (headers : HttpHeaders) (cfg : PayhookConfig) (r : VerificationResult)
    (h : detectAndVerify rt body headers cfg = some r) (hok : r.ok = true) :
    (r.provider = some "paystack" ∧ ∃ s,
      getHeader headers PAYSTACK_SIGNATURE_HEADER = some s ∧ s ≠ "" ∧
      timingSafeEqualHex
        (computePaystackSignature rt body (cfg.paystackSecret.getD "")) s = true) ∨
    (r.provider = some "flutterwave" ∧ ∃ s,
      getHeader headers FLUTTERWAVE_SIGNATURE_HEADER = some s ∧ s ≠ "" ∧
      timingSafeEqualStrings s (cfg.flutterwaveSecretHash.getD "") = true) := by
  rcases detect_some rt body headers cfg r h with ⟨_, _, hr⟩ | ⟨_, _, hr⟩
  · rw [hr] at hok
    obtain ⟨s, hs, hne, hcmp⟩ := paystack_ok_gate _ _ hok
    rw [hr]
    exact Or.inl ⟨paystack_provider_eq .., s, hs, hne, hcmp⟩
  · rw [hr] at hok
    obtain ⟨s, hs, hne, hcmp⟩ := flutterwave_ok_gate _ _ hok
    rw [hr]
    exact Or.inr ⟨flutterwave_provider_eq .., s, hs, hne, hcmp⟩

/-! ## Facts about the pipeline gates -/

theorem paystack_code_ne_stale (rt : JsRuntime)
    (inp : VerifyPaystackWebhookInput) (opts : VerifyOptions) :
    (verifyPaystackWebhook rt inp opts).code ≠ some "PAYHOOK_STALE_EVENT" := by
  rcases paystack_shape rt inp opts with ⟨hr, _⟩ | ⟨s, _, _,
      ⟨_, hr⟩ | ⟨_, ⟨_, hr⟩ | ⟨_, _, _, hr⟩ | ⟨_, _, hr⟩⟩⟩ <;> rw [hr] <;>
    simp [missingHeaderResult, invalidSignatureResult, invalidJsonResult,
      successResult]

theorem flutterwave_code_ne_stale (rt : JsRuntime)
    (inp : VerifyFlutterwaveWebhookInput) (opts : VerifyOptions) :
    (verifyFlutterwaveWebhook rt inp opts).code ≠ some "PAYHOOK_STALE_EVENT" := by
  rcases flutterwave_shape rt inp opts with ⟨hr, _⟩ | ⟨s, _, _,
      ⟨_, hr⟩ | ⟨_, ⟨_, hr⟩ | ⟨_, _, _, hr⟩ | ⟨_, _, hr⟩⟩⟩ <;> rw [hr] <;>
    simp [missingHeaderResult, invalidSignatureResult, invalidJsonResult,
      successResult]

theorem detect_code_ne_stale (rt : JsRuntime) (body : String)
    (headers : HttpHeaders) (cfg : PayhookConfig) (r : VerificationResult)
    (h : detectAndVerify rt body headers cfg = some r) :
    r.code ≠ some "PAYHOOK_STALE_EVENT" := by
  rcases detect_some rt body headers cfg r h with ⟨_, _, hr⟩ | ⟨_, _, hr⟩
  · rw [hr]; exact paystack_code_ne_stale _ _ _
  · rw [hr]; exact flutterwave_code_ne_stale _ _ _

theorem staleGate_some_inv (rt : JsRuntime) (cfg : PayhookConfig)
    (prov : String) (pay : JsValue) (age : ℚ) (m : Int)
    (h : staleGate rt cfg prov pay = some (age, m)) :
    cfg.maxAgeSeconds = some m ∧ m ≠ 0 ∧ staleAge rt m prov pay = some age := by
  unfold staleGate at h
  cases hma : cfg.maxAgeSeconds with
  | none => rw [hma] at h; exact Option.noConfusion h
  | some mq =>
    rw [hma] at h
    dsimp only at h
    by_cases hm : mq ≠ 0
    · rw [if_pos hm] at h
      rw [Option.map_eq_some'] at h
      obtain ⟨a, ha, heq⟩ := h
      obtain ⟨ha2, hmm⟩ := Prod.ext_iff.mp heq
      dsimp only at ha2 hmm
      subst ha2
      subst hmm
      exact ⟨rfl, hm, ha⟩
    · rw [if_neg hm] at h
      exact Option.noConfusion h

theorem staleAge_some_inv (rt : JsRuntime) (m : Int) (prov : String)
    (pay : JsValue) (age : ℚ) (h : staleAge rt m prov pay = some age) :
    ∃ t, extractTimestamp rt prov pay = some (some t) ∧
      Rat.divInt (rt.nowMs - t) 1000 > Rat.divInt m 1 ∧
      age = Rat.divInt (rt.nowMs - t) 1000 := by
  unfold staleAge at h
  cases het : extractTimestamp rt prov pay with
  | none => rw [het] at h; exact Option.noConfusion h
  | some d =>
    cases d with
    | none => rw [het] at h; exact Option.noConfusion h
    | some t =>
      rw [het] at h
      dsimp only at h
      by_cases hgt : Rat.divInt (rt.nowMs - t) 1000 > Rat.divInt m 1
      · rw [if_pos hgt] at h
        exact ⟨t, rfl, hgt, (Option.some.inj h).symm⟩
      · rw [if_neg hgt] at h
        exact Option.noConfusion h

open InMemoryIdempotencyStore in
theorem idempotencyGate_fst (rt : JsRuntime) (cfg : PayhookConfig)
    (prov : String) (pay : JsValue) (store : MemStore)
    (result : VerificationResult) :
    (idempotencyGate rt cfg prov pay store result).1 = result ∨
    ∃ eid, (idempotencyGate rt cfg prov pay store result).1 =
      replayAttackResult prov eid := by
  unfold idempotencyGate
  split
  · cases hext : extractEventId prov pay with
    | some eid =>
      dsimp only
      split
      · exact Or.inr ⟨eid, rfl⟩
      · exact Or.inl rfl
    | none => exact Or.inl rfl
  · exact Or.inl rfl

open InMemoryIdempotencyStore in
theorem verify_cases (rt : JsRuntime) (body : String) (headers : HttpHeaders)
    (cfg : PayhookConfig) (store : MemStore) :
    (detectAndVerify rt body headers cfg = none ∧
      verify rt body headers cfg store = (unknownProviderResult, store)) ∨
    (∃ r, detectAndVerify rt body headers cfg = some r ∧
      ((r.ok = false ∧ verify rt body headers cfg store = (r, store)) ∨
       (r.ok = true ∧
        ((∃ age m, staleGate rt cfg (r.provider.getD "")
            (r.payload.getD JsValue.null) = some (age, m) ∧
          verify rt body headers cfg store =
            (staleEventResult (r.provider.getD "") age m, store)) ∨
         (staleGate rt cfg (r.provider.getD "")
            (r.payload.getD JsValue.null) = none ∧
          verify rt body headers cfg store =
            idempotencyGate rt cfg (r.provider.getD "")
              (r.payload.getD JsValue.null) store r))))) := by
  unfold verify
  cases hdet : detectAndVerify rt body headers cfg with
  | none => exact Or.inl ⟨rfl, rfl⟩
  | some r =>
    refine Or.inr ⟨r, rfl, ?_⟩
    by_cases hok : r.ok = false
    · exact Or.inl ⟨hok, by simp [hok]⟩
    · have hok2 : r.ok = true := by revert hok; cases r.ok <;> simp
      refine Or.inr ⟨hok2, ?_⟩
      cases hsg : staleGate rt cfg (r.provider.getD "")
          (r.payload.getD JsValue.null) with
      | some am =>
        obtain ⟨age, m⟩ := am
        exact Or.inl ⟨age, m, rfl, by simp [hok, hsg]⟩
      | none => exact Or.inr ⟨rfl, by simp [hok, hsg]⟩

/-! ## Claim C4 -/

/-- C4: the Flutterwave (flat-secret-hash) verifier's signature step is a
timing-safe string comparison of the header value against the configured
secret and computes no hash over the body, so its verdict does not bind
to body content: for any two raw bodies with the same signature material,
headers and secret, the signature-gate outcome (`InvalidSignature` or
`MissingHeader` or pass) is identical; and with an extracted signature
`s`, `InvalidSignature` holds exactly when `s` is non-empty and
`timingSafeEqualStrings s secretHash` is `false`. -/
theorem claim4_flat_secret_no_body_binding (rt : JsRuntime)
    (b1 b2 secretHash : String) (sig : Option String) (hs : Option HttpHeaders)
    (opts : VerifyOptions) (body s : String) :
    (((verifyFlutterwaveWebhook rt
        { rawBody := b1, secretHash := secretHash,
          signature := sig, headers := hs } opts).code =
          some "PAYHOOK_INVALID_SIGNATURE") ↔
     ((verifyFlutterwaveWebhook rt
        { rawBody := b2, secretHash := secretHash,
          signature := sig, headers := hs } opts).code =
          some "PAYHOOK_INVALID_SIGNATURE")) ∧
    (((verifyFlutterwaveWebhook rt
        { rawBody := b1, secretHash := secretHash,
          signature := sig, headers := hs } opts).code =
          some "PAYHOOK_MISSING_HEADER") ↔
     ((verifyFlutterwaveWebhook rt
        { rawBody := b2, secretHash := secretHash,
          signature := sig, headers := hs } opts).code =
          some "PAYHOOK_MISSING_HEADER")) ∧
    (((verifyFlutterwaveWebhook rt
        { rawBody := body, secretHash := secretHash,
          signature := some s, headers := hs } opts).code =
          some "PAYHOOK_INVALID_SIGNATURE") ↔
     (s ≠ "" ∧ timingSafeEqualStrings s secretHash = false)) := by
  refine ⟨?_, ?_, ?_⟩
  · rw [flutterwave_code_invalid_iff, flutterwave_code_invalid_iff]
  · rw [flutterwave_code_missing_iff, flutterwave_code_missing_iff]
  · rw [flutterwave_code_invalid_iff]
    constructor
    · rintro ⟨s', hs', hne', hcmp'⟩
      have heq : s = s' := Option.some.inj hs'
      rw [← heq] at hne' hcmp'
      exact ⟨hne', hcmp'⟩
    · rintro ⟨hne, hcmp⟩
      exact ⟨s, rfl, hne, hcmp⟩

/-! ## Claims C3, C5, C8 (signature computation and hex comparison) -/

/-- C3: for all bodies `B` and keys `K`, verifying `B` against the
signature `hex(HMAC-SHA512(K, B))` with secret `K` succeeds (the body
parsing as JSON, here to `p`), and any body whose digest differs —
any differing body, under collision-freeness of HMAC-SHA512, e.g. a
single flipped bit — presented with that same signature yields
`INVALID_SIGNATURE`; the expected value the verifier computes equals the
hex-encoded HMAC-SHA512 of the exact raw body under the secret. -/
theorem claim3_hmac_verify_roundtrip (rt : JsRuntime) (B Bad K : String)
    (p : JsValue) (hjson : rt.jsonParse B = some p)
    (hdiff : rt.hmacSha512 K Bad ≠ rt.hmacSha512 K B) :
    computePaystackSignature rt B K = hexEncode (rt.hmacSha512 K B) ∧
    verifyPaystackWebhook rt
      { rawBody := B, secret := K,
        signature := some (computePaystackSignature rt B K) } {} =
      successResult "paystack" p ∧
    (verifyPaystackWebhook rt
      { rawBody := Bad, secret := K,
        signature := some (computePaystackSignature rt B K) } {}).code =
      some "PAYHOOK_INVALID_SIGNATURE" := by
  have hne : rt.hmacSha512 K B ≠ [] := by
    intro h
    have hl := rt.hmac_len K B
    rw [h] at hl
    simp at hl
  have hsne : computePaystackSignature rt B K ≠ "" :=
    hexEncode_ne_empty _ hne
  refine ⟨rfl, ?_, ?_⟩
  · have hcmp : timingSafeEqualHex (computePaystackSignature rt B K)
        (computePaystackSignature rt B K) = true :=
      (timingSafeEqualHex_eq_true_iff _ _).mpr rfl
    simp only [verifyPaystackWebhook, sigFromInput]
    simp [hsne, hcmp, hjson]
  · have hcmp : timingSafeEqualHex (computePaystackSignature rt Bad K)
        (computePaystackSignature rt B K) = false := by
      cases hb : timingSafeEqualHex (computePaystackSignature rt Bad K)
          (computePaystackSignature rt B K) with
      | false => rfl
      | true =>
        have heq := (timingSafeEqualHex_eq_true_iff _ _).mp hb
        rw [computePaystackSignature, computePaystackSignature,
          bufferFromHex_hexEncode _ (rt.hmac_lt K Bad),
          bufferFromHex_hexEncode _ (rt.hmac_lt K B)] at heq
        exact absurd heq hdiff
    simp only [verifyPaystackWebhook, sigFromInput]
    simp [hsne, hcmp, invalidSignatureResult]

theorem claim3_hmac_verify_roundtrip_witness :
    computePaystackSignature fixtureRt "objbody" "sk" =
      hexEncode (fixtureRt.hmacSha512 "sk" "objbody") ∧
    verifyPaystackWebhook fixtureRt
      { rawBody := "objbody", secret := "sk",
        signature := some (computePaystackSignature fixtureRt "objbody" "sk") } {} =
      successResult "paystack" (.obj []) ∧
    (verifyPaystackWebhook fixtureRt
      { rawBody := "x", secret := "sk",
        signature := some (computePaystackSignature fixtureRt "objbody" "sk") } {}).code =
      some "PAYHOOK_INVALID_SIGNATURE" :=
  claim3_hmac_verify_roundtrip fixtureRt "objbody" "x" "sk" (.obj [])
    (by rfl) (by decide)

/-- C5 counterexample: the claim "for every malformed/non-decodable hex
input compared against valid hex the comparator returns false" fails:
`"abzz"` is not decodable hex (`'z'` is not a hex digit), yet compared
against the valid hex `"ab"` the comparator returns `true`, because Node
decodes the longest valid prefix. -/
theorem claim5_counterexample :
    timingSafeEqualHex "ab" "abzz" = true ∧ "abzz" ≠ "ab" ∧
    hexDigitVal 'z' = none := by
  decide

/-- C5 (amended): the comparator is total (a function, never an error):
it returns `false` for every pair whose decoded byte sequences have
unequal length, `false` whenever the decoded byte sequences differ, and
`true` exactly when the decoded byte sequences coincide — malformed hex
decodes to its longest valid prefix, so decode failure maps to `false`
only through byte inequality, not universally; the string comparator
returns `false` on unequal byte lengths. -/
theorem claim5_comparator_total (a b s t : String) :
    ((bufferFromHex a).length ≠ (bufferFromHex b).length →
      timingSafeEqualHex a b = false) ∧
    (bufferFromHex a ≠ bufferFromHex b → timingSafeEqualHex a b = false) ∧
    (timingSafeEqualHex a b = true ↔ bufferFromHex a = bufferFromHex b) ∧
    (s.utf8ByteSize ≠ t.utf8ByteSize → timingSafeEqualStrings s t = false) := by
  refine ⟨timingSafeEqualHex_length_ne a b, ?_,
    timingSafeEqualHex_eq_true_iff a b, ?_⟩
  · intro h
    cases hb : timingSafeEqualHex a b with
    | false => rfl
    | true => exact absurd ((timingSafeEqualHex_eq_true_iff a b).mp hb) h
  · intro h
    simp [timingSafeEqualStrings, h]

theorem claim5_comparator_total_witness :
    timingSafeEqualHex "00" "0000" = false ∧
    timingSafeEqualHex "01" "02" = false ∧
    (timingSafeEqualHex "0a" "0A" = true ↔
      bufferFromHex "0a" = bufferFromHex "0A") ∧
    timingSafeEqualStrings "a" "bb" = false :=
  ⟨(claim5_comparator_total "00" "0000" "a" "bb").1 (by decide),
   (claim5_comparator_total "01" "02" "a" "bb").2.1 (by decide),
   (claim5_comparator_total "0a" "0A" "a" "bb").2.2.1,
   (claim5_comparator_total "00" "0000" "a" "bb").2.2.2 (by decide)⟩

/-- C8: hex comparison is decided on the decoded prefixes up to the first
invalid pair — two distinct entirely non-hex strings (both decoding to the
empty byte string) compare equal — and `verifyPaystackWebhook` accepts the
correct hex digest followed by a non-hex suffix (any suffix decoding to no
bytes), a syntactically invalid signature string. -/
theorem claim8_hex_prefix_decoding :
    (timingSafeEqualHex "zz" "qq" = true ∧ "zz" ≠ "qq" ∧
      hexDigitVal 'z' = none ∧ hexDigitVal 'q' = none) ∧
    ∀ (rt : JsRuntime) (B K suffix : String),
      hexDecodeAux suffix.data = [] →
      (verifyPaystackWebhook rt
        { rawBody := B, secret := K,
          signature := some (computePaystackSignature rt B K ++ suffix) }
        { parseJson := some false }).ok = true := by
  refine ⟨by decide, ?_⟩
  intro rt B K suffix hsuf
  have hne : rt.hmacSha512 K B ≠ [] := by
    intro h
    have hl := rt.hmac_len K B
    rw [h] at hl
    simp at hl
  have hsne : computePaystackSignature rt B K ++ suffix ≠ "" := by
    rw [computePaystackSignature]
    exact hexEncode_append_ne_empty _ suffix hne
  have hcmp : timingSafeEqualHex (computePaystackSignature rt B K)
      (computePaystackSignature rt B K ++ suffix) = true := by
    apply (timingSafeEqualHex_eq_true_iff _ _).mpr
    rw [computePaystackSignature, bufferFromHex_hexEncode _ (rt.hmac_lt K B),
      bufferFromHex_hexEncode_append _ _ (rt.hmac_lt K B) hsuf]
  simp only [verifyPaystackWebhook, sigFromInput]
  simp [hsne, hcmp, successResult]

theorem claim8_hex_prefix_decoding_witness :
    (verifyPaystackWebhook fixtureRt
      { rawBody := "B", secret := "k",
        signature := some (computePaystackSignature fixtureRt "B" "k" ++ "zz") }
      { parseJson := some false }).ok = true :=
  claim8_hex_prefix_decoding.2 fixtureRt "B" "k" "zz" (by decide)

/-! ## Claims C1, C6, C9, C10 (the unified pipeline) -/

open InMemoryIdempotencyStore in
/-- C1: in the unified pipeline the freshness gate runs strictly before
the idempotency gate and the idempotency record is written only after all
gates pass: every call that terminates with `StaleEvent` leaves the
idempotency store unchanged, so a subsequent call (same event identifier,
fresh timestamp) behaves exactly as if the stale call had never happened —
in particular it succeeds rather than being rejected as `ReplayAttack`. -/
theorem claim1_freshness_before_idempotency (rt : JsRuntime)
    (rawBody : String) (headers : HttpHeaders) (cfg : PayhookConfig)
    (store : MemStore) (body2 : String) (headers2 : HttpHeaders)
    (hstale : (verify rt rawBody headers cfg store).1.code =
      some "PAYHOOK_STALE_EVENT") :
    (verify rt rawBody headers cfg store).2 = store ∧
    verify rt body2 headers2 cfg (verify rt rawBody headers cfg store).2 =
      verify rt body2 headers2 cfg store := by
  have hsnd : (verify rt rawBody headers cfg store).2 = store := by
    rcases verify_cases rt rawBody headers cfg store with
      ⟨hdet, hv⟩ | ⟨r, hdet, ⟨hok, hv⟩ | ⟨hok, ⟨age, m, hsg, hv⟩ | ⟨hsg, hv⟩⟩⟩
    · rw [hv]
    · rw [hv]
    · rw [hv]
    · rw [hv] at hstale
      rcases idempotencyGate_fst rt cfg (r.provider.getD "")
          (r.payload.getD JsValue.null) store r with hfst | ⟨eid, hfst⟩
      · rw [hfst] at hstale
        have hcn := detect_ok_code_none rt rawBody headers cfg r hdet hok
        rw [hcn] at hstale
        exact Option.noConfusion hstale
      · rw [hfst] at hstale
        simp [replayAttackResult] at hstale
  exact ⟨hsnd, by rw [hsnd]⟩

open InMemoryIdempotencyStore in
theorem claim1_freshness_before_idempotency_witness :
    (verify fixtureRt "stale" fixtureHeaders fixtureCfg []).1.code =
      some "PAYHOOK_STALE_EVENT" ∧
    (verify fixtureRt "stale" fixtureHeaders fixtureCfg []).2 = [] ∧
    verify fixtureRt "fresh" fixtureHeaders fixtureCfg
        (verify fixtureRt "stale" fixtureHeaders fixtureCfg []).2 =
      verify fixtureRt "fresh" fixtureHeaders fixtureCfg [] ∧
    (verify fixtureRt "fresh" fixtureHeaders fixtureCfg []).1.ok = true :=
  ⟨by rfl,
   (claim1_freshness_before_idempotency fixtureRt "stale" fixtureHeaders
      fixtureCfg [] "fresh" fixtureHeaders (by rfl)).1,
   (claim1_freshness_before_idempotency fixtureRt "stale" fixtureHeaders
      fixtureCfg [] "fresh" fixtureHeaders (by rfl)).2,
   by rfl⟩

open InMemoryIdempotencyStore in
/-- C6: whenever no configured provider's signature header is present —
including a request whose provider header is present while that provider's
secret material is unconfigured — the unified pipeline returns
`Failure{UnknownProvider}` with no `provider` field, without attempting
verification (never `MissingHeader`). -/
theorem claim6_unknown_provider (rt : JsRuntime) (body : String)
    (headers : HttpHeaders) (cfg : PayhookConfig) (store : MemStore)
    (hps : truthyStrOpt (getHeader headers PAYSTACK_SIGNATURE_HEADER) = false ∨
      truthyStrOpt cfg.paystackSecret = false)
    (hfw : truthyStrOpt (getHeader headers FLUTTERWAVE_SIGNATURE_HEADER) = false ∨
      truthyStrOpt cfg.flutterwaveSecretHash = false) :
    verify rt body headers cfg store = (unknownProviderResult, store) ∧
    unknownProviderResult.provider = none ∧
    unknownProviderResult.code = some "PAYHOOK_UNKNOWN_PROVIDER" := by
  refine ⟨?_, rfl, rfl⟩
  have hdet := detect_none rt body headers cfg hps hfw
  unfold verify
  rw [hdet]

open InMemoryIdempotencyStore in
theorem claim6_unknown_provider_witness :
    verify fixtureRt "x" unknownHeaders unknownCfg [] =
      (unknownProviderResult, []) ∧
    unknownProviderResult.provider = none ∧
    unknownProviderResult.code = some "PAYHOOK_UNKNOWN_PROVIDER" :=
  claim6_unknown_provider fixtureRt "x" unknownHeaders unknownCfg []
    (Or.inr (by rfl)) (Or.inl (by rfl))

open InMemoryIdempotencyStore in
/-- C9: the freshness gate never rejects an event whose timestamp field is
present but unusable.  (i) A falsy timestamp value (`0`, `""`, `null`, or
both fields absent) makes `extractTimestamp` return `undefined`, skipping
the gate; (ii) a truthy value whose `new Date(·)` is an Invalid Date
(`getTime()` = `NaN`) makes the age comparison false, so the gate never
fires; (iii) every `StaleEvent` outcome of the pipeline comes from a
timestamp that actually parsed to a number whose age exceeds the limit. -/
theorem claim9_unusable_timestamp_passes :
    (∀ (rt : JsRuntime) (payload : JsValue),
      truthyOpt (jsOr (optField (optField (some payload) "data") "created_at")
        (optField (optField (some payload) "data") "paid_at")) = false →
      extractTimestamp rt "paystack" payload = none) ∧
    (∀ (rt : JsRuntime) (m : Int) (payload v : JsValue),
      jsOr (optField (optField (some payload) "data") "created_at")
        (optField (optField (some payload) "data") "paid_at") = some v →
      truthy v = true → newDateMs rt v = none →
      staleAge rt m "paystack" payload = none) ∧
    (∀ (rt : JsRuntime) (body : String) (headers : HttpHeaders)
      (cfg : PayhookConfig) (store : MemStore),
      (verify rt body headers cfg store).1.code = some "PAYHOOK_STALE_EVENT" →
      ∃ r m t, detectAndVerify rt body headers cfg = some r ∧
        cfg.maxAgeSeconds = some m ∧ m ≠ 0 ∧
        extractTimestamp rt (r.provider.getD "") (r.payload.getD JsValue.null) =
          some (some t) ∧
        Rat.divInt (rt.nowMs - t) 1000 > Rat.divInt m 1) := by
  refine ⟨?_, ?_, ?_⟩
  · intro rt payload htr
    unfold extractTimestamp
    rw [if_pos rfl]
    cases hj : jsOr (optField (optField (some payload) "data") "created_at")
        (optField (optField (some payload) "data") "paid_at") with
    | none => rfl
    | some v =>
      rw [hj] at htr
      simp only [truthyOpt] at htr
      simp [htr]
  · intro rt m payload v hj htr hnd
    have hext : extractTimestamp rt "paystack" payload = some none := by
      unfold extractTimestamp
      rw [if_pos rfl, hj]
      simp [htr, hnd]
    unfold staleAge
    rw [hext]
  · intro rt body headers cfg store hstale
    rcases verify_cases rt body headers cfg store with
      ⟨hdet, hv⟩ | ⟨r, hdet, ⟨hok, hv⟩ | ⟨hok, ⟨age, m, hsg, hv⟩ | ⟨hsg, hv⟩⟩⟩
    · rw [hv] at hstale
      simp [unknownProviderResult] at hstale
    · rw [hv] at hstale
      exact absurd hstale (detect_code_ne_stale rt body headers cfg r hdet)
    · obtain ⟨hma, hm0, hsa⟩ := staleGate_some_inv rt cfg _ _ age m hsg
      obtain ⟨t, het, hgt, _⟩ := staleAge_some_inv rt m _ _ age hsa
      exact ⟨r, m, t, hdet, hma, hm0, het, hgt⟩
    · rw [hv] at hstale
      rcases idempotencyGate_fst rt cfg (r.provider.getD "")
          (r.payload.getD JsValue.null) store r with hfst | ⟨eid, hfst⟩
      · rw [hfst] at hstale
        have hcn := detect_ok_code_none rt body headers cfg r hdet hok
        rw [hcn] at hstale
        exact Option.noConfusion hstale
      · rw [hfst] at hstale
        simp [replayAttackResult] at hstale

theorem claim9_unusable_timestamp_passes_witness :
    staleAge fixtureRt 300 "paystack" garbagePayload = none ∧
    extractTimestamp fixtureRt "paystack" zeroTsPayload = none :=
  ⟨claim9_unusable_timestamp_passes.2.1 fixtureRt 300 garbagePayload
      (.str "not-a-date") (by rfl) (by rfl) (by rfl),
   claim9_unusable_timestamp_passes.1 fixtureRt zeroTsPayload (by rfl)⟩

open InMemoryIdempotencyStore in
/-- C10: the unified `verify` never returns the `MISSING_HEADER` failure
code — detection dispatches only when the provider's signature header is
already present (truthy), and the verifier re-extracts it with the same
case-insensitive lookup, so its missing-header branch is unreachable. -/
theorem claim10_missing_header_unreachable (rt : JsRuntime) (body : String)
    (headers : HttpHeaders) (cfg : PayhookConfig) (store : MemStore) :
    ((verify rt body headers cfg store).1.code ==
      some "PAYHOOK_MISSING_HEADER") = false := by
  rcases verify_cases rt body headers cfg store with
    ⟨hdet, hv⟩ | ⟨r, hdet, ⟨hok, hv⟩ | ⟨hok, ⟨age, m, hsg, hv⟩ | ⟨hsg, hv⟩⟩⟩
  · rw [hv]
    rfl
  · rw [hv]
    exact beq_eq_false_iff_ne.mpr (detect_code_ne_missing rt body headers cfg r hdet)
  · rw [hv]
    rfl
  · rw [hv]
    rcases idempotencyGate_fst rt cfg (r.provider.getD "")
        (r.payload.getD JsValue.null) store r with hfst | ⟨eid, hfst⟩
    · rw [hfst]
      exact beq_eq_false_iff_ne.mpr (detect_code_ne_missing rt body headers cfg r hdet)
    · rw [hfst]
      rfl

/-! ## Claim C7 -/

open InMemoryIdempotencyStore in
/-- C7: every outcome of the pipeline satisfies: `payload` is present iff
the outcome is Success; the payload is the JSON-parsed body (and, at the
verifier level, the raw text when JSON parsing is disabled); a successful
outcome implies the signature gate held for the detected provider (payload
materialized only after signature verification); and the `provider` field
is absent exactly on `UnknownProvider` failures. -/
theorem claim7_outcome_invariants (rt : JsRuntime) (body : String)
    (headers : HttpHeaders) (cfg : PayhookConfig) (store : MemStore) :
    ((verify rt body headers cfg store).1.ok = true ↔
      (verify rt body headers cfg store).1.payload.isSome = true) ∧
    ((verify rt body headers cfg store).1.payload =
      if (verify rt body headers cfg store).1.ok = true
      then rt.jsonParse body else none) ∧
    ((verify rt body headers cfg store).1.provider = none ↔
      (verify rt body headers cfg store).1.code = some "PAYHOOK_UNKNOWN_PROVIDER") ∧
    ((verify rt body headers cfg store).1.ok = true →
      (((verify rt body headers cfg store).1.provider = some "paystack" ∧ ∃ s,
        getHeader headers PAYSTACK_SIGNATURE_HEADER = some s ∧ s ≠ "" ∧
        timingSafeEqualHex (computePaystackSignature rt body
          (cfg.paystackSecret.getD "")) s = true) ∨
       ((verify rt body headers cfg store).1.provider = some "flutterwave" ∧ ∃ s,
        getHeader headers FLUTTERWAVE_SIGNATURE_HEADER = some s ∧ s ≠ "" ∧
        timingSafeEqualStrings s (cfg.flutterwaveSecretHash.getD "") = true))) ∧
    (∀ inp : VerifyPaystackWebhookInput,
      (verifyPaystackWebhook rt inp { parseJson := some false }).ok = true →
      (verifyPaystackWebhook rt inp { parseJson := some false }).payload =
        some (JsValue.str inp.rawBody)) := by
  have he : ∀ inp : VerifyPaystackWebhookInput,
      (verifyPaystackWebhook rt inp { parseJson := some false }).ok = true →
      (verifyPaystackWebhook rt inp { parseJson := some false }).payload =
        some (JsValue.str inp.rawBody) := by
    intro inp h
    rcases paystack_shape rt inp { parseJson := some false } with ⟨hr, _⟩ |
        ⟨s, _, _, ⟨_, hr⟩ | ⟨_, ⟨_, hr⟩ | ⟨hpj, _, _, hr⟩ | ⟨hpj, _, hr⟩⟩⟩
    · rw [hr] at h; simp [missingHeaderResult] at h
    · rw [hr] at h; simp [invalidSignatureResult] at h
    · rw [hr]; rfl
    · exact absurd rfl hpj
    · exact absurd rfl hpj
  rcases verify_cases rt body headers cfg store with
    ⟨hdet, hv⟩ | ⟨r, hdet, ⟨hok, hv⟩ | ⟨hok, ⟨age, m, hsg, hv⟩ | ⟨hsg, hv⟩⟩⟩
  · rw [hv]
    refine ⟨by simp [unknownProviderResult], by simp [unknownProviderResult],
      by simp [unknownProviderResult], ?_, he⟩
    intro h
    simp [unknownProviderResult] at h
  · rw [hv]
    dsimp only
    refine ⟨detect_ok_iff_payload rt body headers cfg r hdet,
      detect_payload rt body headers cfg r hdet, ?_, ?_, he⟩
    · constructor
      · intro hpnone
        rcases detect_provider rt body headers cfg r hdet with hp | hp <;>
          rw [hp] at hpnone <;> exact Option.noConfusion hpnone
      · intro hcode
        exact absurd hcode (detect_code_ne_unknown rt body headers cfg r hdet)
    · intro hok2
      exact detect_ok_gate rt body headers cfg r hdet hok2
  · rw [hv]
    dsimp only
    refine ⟨by simp [staleEventResult], by simp [staleEventResult],
      by simp [staleEventResult], ?_, he⟩
    intro h
    simp [staleEventResult] at h
  · rw [hv]
    rcases idempotencyGate_fst rt cfg (r.provider.getD "")
        (r.payload.getD JsValue.null) store r with hfst | ⟨eid, hfst⟩
    · rw [hfst]
      refine ⟨detect_ok_iff_payload rt body headers cfg r hdet,
        detect_payload rt body headers cfg r hdet, ?_, ?_, he⟩
      · constructor
        · intro hpnone
          rcases detect_provider rt body headers cfg r hdet with hp | hp <;>
            rw [hp] at hpnone <;> exact Option.noConfusion hpnone
        · intro hcode
          exact absurd hcode (detect_code_ne_unknown rt body headers cfg r hdet)
      · intro hok2
        exact detect_ok_gate rt body headers cfg r hdet hok2
    · rw [hfst]
      refine ⟨by simp [replayAttackResult], by simp [replayAttackResult],
        by simp [replayAttackResult], ?_, he⟩
      intro h
      simp [replayAttackResult] at h

open InMemoryIdempotencyStore in
theorem claim7_outcome_invariants_witness :
    ((verify fixtureRt "fresh" fixtureHeaders fixtureCfg []).1.payload =
      if (verify fixtureRt "fresh" fixtureHeaders fixtureCfg []).1.ok = true
      then fixtureRt.jsonParse "fresh" else none) ∧
    (((verify fixtureRt "fresh" fixtureHeaders fixtureCfg []).1.provider =
        some "paystack" ∧ ∃ s,
      getHeader fixtureHeaders PAYSTACK_SIGNATURE_HEADER = some s ∧ s ≠ "" ∧
      timingSafeEqualHex (computePaystackSignature fixtureRt "fresh"
        (fixtureCfg.paystackSecret.getD "")) s = true) ∨
     ((verify fixtureRt "fresh" fixtureHeaders fixtureCfg []).1.provider =
        some "flutterwave" ∧ ∃ s,
      getHeader fixtureHeaders FLUTTERWAVE_SIGNATURE_HEADER = some s ∧ s ≠ "" ∧
      timingSafeEqualStrings s (fixtureCfg.flutterwaveSecretHash.getD "") = true)) ∧
    (verifyPaystackWebhook fixtureRt
      { rawBody := "x", secret := "k",
        signature := some (computePaystackSignature fixtureRt "x" "k") }
      { parseJson := some false }).payload = some (JsValue.str "x") :=
  ⟨(claim7_outcome_invariants fixtureRt "fresh" fixtureHeaders fixtureCfg []).2.1,
   (claim7_outcome_invariants fixtureRt "fresh" fixtureHeaders fixtureCfg
      []).2.2.2.1 (by rfl),
   (claim7_outcome_invariants fixtureRt "fresh" fixtureHeaders fixtureCfg
      []).2.2.2.2
     { rawBody := "x", secret := "k",
       signature := some (computePaystackSignature fixtureRt "x" "k") }
     (by rfl)⟩

end Payhook
